import Mathlib

/-!
Verification of the Flappy-Bird clone (src/main.rs).

Shallow embedding conventions: Rust `f32` values are modelled as exact
rationals (`ℚ`), `u8`/`u32`/`usize` as `Nat`.  Randomness (pipe offsets) is
modelled as an explicit oracle argument.  The file system is modelled as an
abstract per-slot file state; `serde_json` text is modelled at the level of a
JSON value tree, with the struct encodings following serde's derived field
layout and the repository's hand-written enum codecs.
-/

-- ---------------------------------------------------------------------------
-- Enums and plain records (main.rs lines 27-205)
-- ---------------------------------------------------------------------------

/-- Embeds `enum GameState` (main.rs line 28). -/
inductive GameState where
  | MainMenu
  | Options
  | SaveSelect
  | ModeSelect
  | DifficultySelect
  | ThemeSelect
  | SkinSelect
  | Playing
  | GameOver
  | Victory
  | Leaderboard
deriving Repr, DecidableEq

/-- Embeds `enum GameMode` (main.rs line 46). -/
inductive GameMode where
  | Endless
  | TimeAttack
  | Checkpoints
deriving Repr, DecidableEq

/-- Embeds `enum Difficulty` (main.rs line 49). -/
inductive Difficulty where
  | Easy
  | Normal
  | Hard
deriving Repr, DecidableEq

/-- Embeds `enum Theme` (main.rs line 52). -/
inductive Theme where
  | Classic
  | HighContrast
  | Minimal
deriving Repr, DecidableEq

/-- Embeds `enum Skin` (main.rs line 55). -/
inductive Skin where
  | Classic
  | Red
  | Blue
  | Green
deriving Repr, DecidableEq

/-- Embeds `struct PlayerProfile` (main.rs line 58). -/
structure PlayerProfile where
  name : String
  high_score : Nat
  total_games : Nat
  average_score : ℚ
  longest_survival : ℚ
deriving Repr, DecidableEq

/-- Embeds `struct SaveSlot` (main.rs line 72). -/
structure SaveSlot where
  slot_number : Nat
  profile : PlayerProfile
  mode : GameMode
  difficulty : Difficulty
  theme : Theme
  skin : Skin
  score : Nat
  survival_time : ℚ
deriving Repr, DecidableEq

/-- Embeds `struct Score` (main.rs line 136); `scored_pipes : Vec<Entity>` is
modelled as a list of entity ids. -/
structure ScoreState where
  current : Nat
  best : Nat
  scored_pipes : List Nat
deriving Repr, DecidableEq

/-- Embeds `struct DifficultyTuning` (main.rs line 170). -/
structure DifficultyTuning where
  gap_size : ℚ
  scroll_speed : ℚ
  gravity_mult : ℚ
  flap_mult : ℚ
  vertical_offset : ℚ
deriving Repr, DecidableEq

/-- Embeds the gameplay-relevant part of the bird entity: the `Bird` component
velocity (main.rs line 179) together with its `Transform` translation. -/
structure BirdState where
  velocity : ℚ
  x : ℚ
  y : ℚ
deriving Repr, DecidableEq

/-- Embeds the gameplay-relevant part of an obstacle entity: the `Obstacle`
component (main.rs line 202) together with its `Transform` translation. -/
structure ObstacleState where
  pipe_direction : ℚ
  scored : Bool
  x : ℚ
  y : ℚ
deriving Repr, DecidableEq

/-- Embeds `struct CheckpointsState` (main.rs line 162). -/
structure CheckpointsState where
  checkpoints : List Nat
  current_checkpoint_index : Nat
  completed : Bool
  last_checkpoint_score : Nat
deriving Repr, DecidableEq

-- ---------------------------------------------------------------------------
-- Gameplay constants (main.rs lines 12-23); `pixel_ratio` embeds PIXEL_RATIO.
-- ---------------------------------------------------------------------------

def pixel_ratio : ℚ := 4

def FLAP_FORCE : ℚ := 500

def GRAVITY : ℚ := 2000

def OBSTACLE_AMOUNT : Nat := 5

def OBSTACLE_WIDTH : ℚ := 32

def OBSTACLE_HEIGHT : ℚ := 144

def OBSTACLE_VERTICAL_OFFSET : ℚ := 8

def OBSTACLE_GAP_SIZE : ℚ := 25

def OBSTACLE_SPACING : ℚ := 60

def OBSTACLE_SCROLL_SPEED : ℚ := 150

-- ---------------------------------------------------------------------------
-- Hand-written serde codecs for the four enums (main.rs lines 281-393)
-- ---------------------------------------------------------------------------

/-- Embeds `impl Serialize for GameMode` (main.rs line 281). -/
def GameMode.serialize : GameMode → String
  | GameMode.Endless => "Endless"
  | GameMode.TimeAttack => "TimeAttack"
  | GameMode.Checkpoints => "Checkpoints"

/-- Embeds `impl Deserialize for GameMode` (main.rs line 294). -/
def GameMode.deserialize (s : String) : Option GameMode :=
  if s = "Endless" then some GameMode.Endless
  else if s = "TimeAttack" then some GameMode.TimeAttack
  else if s = "Checkpoints" then some GameMode.Checkpoints
  else none

/-- Embeds `impl Serialize for Difficulty` (main.rs line 309). -/
def Difficulty.serialize : Difficulty → String
  | Difficulty.Easy => "Easy"
  | Difficulty.Normal => "Normal"
  | Difficulty.Hard => "Hard"

/-- Embeds `impl Deserialize for Difficulty` (main.rs line 322). -/
def Difficulty.deserialize (s : String) : Option Difficulty :=
  if s = "Easy" then some Difficulty.Easy
  else if s = "Normal" then some Difficulty.Normal
  else if s = "Hard" then some Difficulty.Hard
  else none

/-- Embeds `impl Serialize for Theme` (main.rs line 337). -/
def Theme.serialize : Theme → String
  | Theme.Classic => "Classic"
  | Theme.HighContrast => "HighContrast"
  | Theme.Minimal => "Minimal"

/-- Embeds `impl Deserialize for Theme` (main.rs line 350). -/
def Theme.deserialize (s : String) : Option Theme :=
  if s = "Classic" then some Theme.Classic
  else if s = "HighContrast" then some Theme.HighContrast
  else if s = "Minimal" then some Theme.Minimal
  else none

/-- Embeds `impl Serialize for Skin` (main.rs line 365). -/
def Skin.serialize : Skin → String
  | Skin.Classic => "Classic"
  | Skin.Red => "Red"
  | Skin.Blue => "Blue"
  | Skin.Green => "Green"

/-- Embeds `impl Deserialize for Skin` (main.rs line 379). -/
def Skin.deserialize (s : String) : Option Skin :=
  if s = "Classic" then some Skin.Classic
  else if s = "Red" then some Skin.Red
  else if s = "Blue" then some Skin.Blue
  else if s = "Green" then some Skin.Green
  else none

theorem gameMode_deserialize_serialize (m : GameMode) :
    GameMode.deserialize (GameMode.serialize m) = some m := by
  cases m <;> rfl

theorem difficulty_deserialize_serialize (d : Difficulty) :
    Difficulty.deserialize (Difficulty.serialize d) = some d := by
  cases d <;> rfl

theorem theme_deserialize_serialize (t : Theme) :
    Theme.deserialize (Theme.serialize t) = some t := by
  cases t <;> rfl

theorem skin_deserialize_serialize (k : Skin) :
    Skin.deserialize (Skin.serialize k) = some k := by
  cases k <;> rfl

-- ---------------------------------------------------------------------------
-- JSON value model and the derived serde encodings of the records
-- ---------------------------------------------------------------------------

/-- JSON value tree, the level at which `serde_json` represents a document.
Integer numbers (`u8`/`u32`) and floating-point numbers (`f32`, modelled
exactly as rationals) are kept apart, as `serde_json`'s number type does. -/
inductive Json where
  | str : String → Json
  | num : Nat → Json
  | flt : ℚ → Json
  | obj : List (String × Json) → Json

/-- First-match lookup of a field in a JSON object's field list. -/
def lookupField : List (String × Json) → String → Option Json
  | [], _ => none
  | (k, v) :: rest, key => if k = key then some v else lookupField rest key

/-- Field access on a JSON value; `none` on non-objects. -/
def Json.getField (j : Json) (key : String) : Option Json :=
  match j with
  | Json.obj fields => lookupField fields key
  | _ => none

/-- Derived serde encoding of `PlayerProfile`: an object with the fields in
declaration order (main.rs line 58). -/
def encodePlayerProfile (p : PlayerProfile) : Json :=
  Json.obj
    [("name", Json.str p.name),
     ("high_score", Json.num p.high_score),
     ("total_games", Json.num p.total_games),
     ("average_score", Json.flt p.average_score),
     ("longest_survival", Json.flt p.longest_survival)]

/-- Derived serde decoding of `PlayerProfile`. -/
def decodePlayerProfile (j : Json) : Option PlayerProfile :=
  match j.getField "name", j.getField "high_score", j.getField "total_games",
      j.getField "average_score", j.getField "longest_survival" with
  | some (Json.str n), some (Json.num h), some (Json.num t),
      some (Json.flt a), some (Json.flt l) =>
    some { name := n, high_score := h, total_games := t,
           average_score := a, longest_survival := l }
  | _, _, _, _, _ => none

/-- Derived serde encoding of `SaveSlot` (main.rs line 72), using the
hand-written string codecs for the four enum fields. -/
def encodeSaveSlot (s : SaveSlot) : Json :=
  Json.obj
    [("slot_number", Json.num s.slot_number),
     ("profile", encodePlayerProfile s.profile),
     ("mode", Json.str (GameMode.serialize s.mode)),
     ("difficulty", Json.str (Difficulty.serialize s.difficulty)),
     ("theme", Json.str (Theme.serialize s.theme)),
     ("skin", Json.str (Skin.serialize s.skin)),
     ("score", Json.num s.score),
     ("survival_time", Json.flt s.survival_time)]

/-- Derived serde decoding of `SaveSlot`. -/
def decodeSaveSlot (j : Json) : Option SaveSlot :=
  match j.getField "slot_number", j.getField "profile", j.getField "mode",
      j.getField "difficulty", j.getField "theme", j.getField "skin",
      j.getField "score", j.getField "survival_time" with
  | some (Json.num sn), some pj, some (Json.str ms), some (Json.str ds),
      some (Json.str ts), some (Json.str ks), some (Json.num sc),
      some (Json.flt st) =>
    match decodePlayerProfile pj, GameMode.deserialize ms,
        Difficulty.deserialize ds, Theme.deserialize ts, Skin.deserialize ks with
    | some p, some m, some d, some t, some k =>
      some { slot_number := sn, profile := p, mode := m, difficulty := d,
             theme := t, skin := k, score := sc, survival_time := st }
    | _, _, _, _, _ => none
  | _, _, _, _, _, _, _, _ => none

theorem decodePlayerProfile_encode (p : PlayerProfile) :
    decodePlayerProfile (encodePlayerProfile p) = some p := by
  cases p
  rfl

theorem decodeSaveSlot_encode (s : SaveSlot) :
    decodeSaveSlot (encodeSaveSlot s) = some s := by
  obtain ⟨sn, p, m, d, t, k, sc, st⟩ := s
  cases p
  cases m <;> cases d <;> cases t <;> cases k <;> rfl

-- ---------------------------------------------------------------------------
-- File system model and save-slot I/O (main.rs lines 582-600)
-- ---------------------------------------------------------------------------

/-- Abstract state of one save file.  `missing` models a nonexistent path,
`unreadable` a path whose `fs::read_to_string` fails, `invalidJson` readable
text that `serde_json` cannot parse at all, and `json j` readable text that
parses to the JSON value `j`. -/
inductive FileState where
  | missing
  | unreadable
  | invalidJson
  | json : Json → FileState

/-- Embeds `load_save_slot` (main.rs line 582): returns `None` unless the
file exists, is readable, parses, and decodes to a `SaveSlot`. -/
def load_save_slot (f : FileState) : Option SaveSlot :=
  match f with
  | FileState.json j => decodeSaveSlot j
  | _ => none

/-- Embeds `save_to_slot` (main.rs line 595): serializes the whole slot and
overwrites the file.  `writeOk` models whether `fs::write` succeeds; on
failure the old file state is kept and an error is returned. -/
def save_to_slot (writeOk : Bool) (s : SaveSlot) (old : FileState) :
    Except Unit Unit × FileState :=
  if writeOk then (Except.ok (), FileState.json (encodeSaveSlot s))
  else (Except.error (), old)

-- ---------------------------------------------------------------------------
-- Run-end profile update (main.rs lines 2076-2106)
-- ---------------------------------------------------------------------------

/-- Embeds the inline default profile built in `update_bird` when no save
exists for the slot (main.rs line 2079). -/
def newPlayerProfile (slotNum : Nat) : PlayerProfile :=
  { name := "Player " ++ toString slotNum,
    high_score := 0,
    total_games := 0,
    average_score := 0,
    longest_survival := 0 }

/-- Embeds the profile mutation performed on run end in `update_bird`
(main.rs lines 2087-2092): bump the game count, raise the high score if
beaten, and fold the run score into the running average.  No other field is
touched. -/
def update_profile_on_run_end (p : PlayerProfile) (runScore : Nat) : PlayerProfile :=
  let total := p.total_games + 1
  { p with
    total_games := total,
    high_score := if runScore > p.high_score then runScore else p.high_score,
    average_score :=
      (p.average_score * ((total - 1 : Nat) : ℚ) + (runScore : ℚ)) / (total : ℚ) }

-- ---------------------------------------------------------------------------
-- Physics and the per-frame bird system (main.rs lines 1987-2111)
-- ---------------------------------------------------------------------------

/-- Embeds the physics lines of `update_bird` (main.rs lines 2003-2015): an
optional flap impulse, then gravity applied to the velocity, then the updated
velocity applied to the y translation.  The bird's x translation never
changes. -/
def update_bird_physics (spacePressed : Bool) (dt : ℚ) (tuning : DifficultyTuning)
    (b : BirdState) : BirdState :=
  let v0 := if spacePressed then FLAP_FORCE * tuning.flap_mult else b.velocity
  let v1 := v0 - dt * GRAVITY * tuning.gravity_mult
  { b with velocity := v1, y := b.y + v1 * dt }

/-- Embeds the score bump of `update_bird` (main.rs lines 2030-2033). -/
def bumpScore (sc : ScoreState) : ScoreState :=
  let cur := sc.current + 1
  { sc with current := cur, best := if cur > sc.best then cur else sc.best }

/-- Embeds the scoring `if` of `update_bird` (main.rs lines 2028-2043): an
unscored pipe the bird has passed scores a point if it is the upward pipe of
its pair, and is then marked scored. -/
def scorePass (birdX : ℚ) (o : ObstacleState) (sc : ScoreState) :
    ObstacleState × ScoreState :=
  if o.scored = false ∧ birdX > o.x then
    if o.pipe_direction = 1 then ({ o with scored := true }, bumpScore sc)
    else (o, sc)
  else (o, sc)

/-- Embeds the scoring-and-collision loop of `update_bird`
(main.rs lines 2027-2053): for each obstacle in order, first award a point
for an unscored upward pipe the bird has passed, then test axis-aligned box
overlap against the pipe's (unchanged) translation and break on a hit.
Returns the updated obstacle list, the updated score, and the collision
flag. -/
def scoreAndCollide (birdX birdY : ℚ) :
    List ObstacleState → ScoreState → List ObstacleState × ScoreState × Bool
  | [], sc => ([], sc, false)
  | o :: rest, sc =>
    let step := scorePass birdX o sc
    if |o.y - birdY| < OBSTACLE_HEIGHT * pixel_ratio / 2 ∧
        |o.x - birdX| < OBSTACLE_WIDTH * pixel_ratio / 2 then
      (step.1 :: rest, step.2, true)
    else
      let r := scoreAndCollide birdX birdY rest step.2
      (step.1 :: r.1, r.2.1, r.2.2)

/-- Per-frame input to the `update_bird` system: the pressed key, the frame
delta, the cached window dimensions (`GameManager`), the difficulty tuning,
the `GameSettings` fields it reads, the optional `CheckpointsState` resource,
and the state of the selected slot's save file. -/
structure UpdateBirdInput where
  spacePressed : Bool
  dt : ℚ
  windowW : ℚ
  windowH : ℚ
  tuning : DifficultyTuning
  mode : GameMode
  currentSlot : Option Nat
  difficulty : Difficulty
  theme : Theme
  skin : Skin
  cp : Option CheckpointsState
  file : FileState

/-- Result of one `update_bird` frame: the bird, the obstacles, the score,
the requested state transition (if any), and the slot written to disk (if
any). -/
structure UpdateBirdResult where
  bird : BirdState
  obstacles : List ObstacleState
  score : ScoreState
  nextState : Option GameState
  fileWrite : Option SaveSlot

/-- Floor check plus the scoring/collision loop of `update_bird`
(main.rs lines 2023-2054): falling below the bottom of the window kills the
bird outright and skips the loop. -/
def update_bird_step (inp : UpdateBirdInput) (b1 : BirdState)
    (obs : List ObstacleState) (sc : ScoreState) :
    List ObstacleState × ScoreState × Bool :=
  if b1.y ≤ -inp.windowH / 2 then (obs, sc, true)
  else scoreAndCollide b1.x b1.y obs sc

/-- The bird after the physics lines of the frame. -/
def birdAfterPhysics (inp : UpdateBirdInput) (b : BirdState) : BirdState :=
  update_bird_physics inp.spacePressed inp.dt inp.tuning b

/-- The obstacle list, score and collision flag after the floor check and
the scoring/collision loop of the frame. -/
def frameStep (inp : UpdateBirdInput) (b : BirdState)
    (obs : List ObstacleState) (sc : ScoreState) :
    List ObstacleState × ScoreState × Bool :=
  update_bird_step inp (birdAfterPhysics inp b) obs sc

/-- Whether `update_bird` declares the bird dead this frame. -/
def birdDies (inp : UpdateBirdInput) (b : BirdState)
    (obs : List ObstacleState) (sc : ScoreState) : Bool :=
  (frameStep inp b obs sc).2.2

/-- Embeds the whole `update_bird` system (main.rs lines 1987-2111):
physics, floor/pipe collision and scoring, the Checkpoints-mode respawn, and
the run-end save plus transition to `GameOver`. -/
def update_bird (inp : UpdateBirdInput) (b : BirdState)
    (obs : List ObstacleState) (sc : ScoreState) : UpdateBirdResult :=
  let b1 := birdAfterPhysics inp b
  let step := frameStep inp b obs sc
  let obs1 := step.1
  let sc1 := step.2.1
  let dead := step.2.2
  if dead then
    match inp.mode, inp.cp with
    | GameMode.Checkpoints, some cpSt =>
      { bird := { b1 with velocity := 0, y := 0 },
        obstacles := obs1,
        score := { sc1 with current := cpSt.last_checkpoint_score },
        nextState := none,
        fileWrite := none }
    | _, _ =>
      match inp.currentSlot with
      | some slotNum =>
        let profile :=
          ((load_save_slot inp.file).map (fun s => s.profile)).getD
            (newPlayerProfile slotNum)
        let slot : SaveSlot :=
          { slot_number := slotNum,
            profile := update_profile_on_run_end profile sc1.current,
            mode := inp.mode,
            difficulty := inp.difficulty,
            theme := inp.theme,
            skin := inp.skin,
            score := sc1.current,
            survival_time := 0 }
        { bird := b1, obstacles := obs1, score := sc1,
          nextState := some GameState.GameOver, fileWrite := some slot }
      | none =>
        { bird := b1, obstacles := obs1, score := sc1,
          nextState := some GameState.GameOver, fileWrite := none }
  else
    { bird := b1, obstacles := obs1, score := sc1,
      nextState := none, fileWrite := none }

/-- One `update_bird` frame followed by applying its file write (if any) to
the slot's file; `save_to_slot`'s result is discarded as in the source
(main.rs line 2105). -/
def update_bird_and_persist (writeOk : Bool) (inp : UpdateBirdInput)
    (b : BirdState) (obs : List ObstacleState) (sc : ScoreState) :
    UpdateBirdResult × FileState :=
  let r := update_bird inp b obs sc
  match r.fileWrite with
  | some s => (r, (save_to_slot writeOk s inp.file).2)
  | none => (r, inp.file)

-- ---------------------------------------------------------------------------
-- Obstacle scrolling and recycling (main.rs lines 1906-1985)
-- ---------------------------------------------------------------------------

/-- Embeds `get_centered_pipe_position` (main.rs line 1906). -/
def get_centered_pipe_position (gap_size : ℚ) : ℚ :=
  (OBSTACLE_HEIGHT / 2 + gap_size) * pixel_ratio

/-- Embeds the body of the `update_obstacles` loop for one obstacle
(main.rs lines 1971-1983): scroll left, and once the obstacle has exited the
left window edge teleport it right by the full ring width, give it a fresh
vertical position on its pipe's side, and clear its scored flag.  `offset`
is the oracle value standing for `generate_offset`'s random draw. -/
def update_obstacle (dt scroll_speed windowW gap_size : ℚ) (offset : ℚ)
    (o : ObstacleState) : ObstacleState :=
  let x1 := o.x - dt * scroll_speed
  if x1 + OBSTACLE_WIDTH * pixel_ratio / 2 < -windowW / 2 then
    { o with
      x := x1 + (OBSTACLE_AMOUNT : ℚ) * OBSTACLE_SPACING * pixel_ratio,
      y := get_centered_pipe_position gap_size * o.pipe_direction + offset,
      scored := false }
  else
    { o with x := x1 }

/-- Helper for `update_obstacles`: apply `update_obstacle` to each obstacle,
feeding the i-th oracle offset to the i-th obstacle. -/
def update_obstacles_from (dt scroll_speed windowW gap_size : ℚ)
    (offsets : Nat → ℚ) (i : Nat) :
    List ObstacleState → List ObstacleState
  | [] => []
  | o :: rest =>
    update_obstacle dt scroll_speed windowW gap_size (offsets i) o ::
      update_obstacles_from dt scroll_speed windowW gap_size offsets (i + 1) rest

/-- Embeds the `update_obstacles` system (main.rs lines 1964-1985). -/
def update_obstacles (dt scroll_speed windowW gap_size : ℚ)
    (offsets : Nat → ℚ) (obs : List ObstacleState) : List ObstacleState :=
  update_obstacles_from dt scroll_speed windowW gap_size offsets 0 obs

-- ---------------------------------------------------------------------------
-- Time-attack countdown (main.rs lines 2127-2148)
-- ---------------------------------------------------------------------------

/-- Embeds the `update_time_attack` system (main.rs lines 2127-2148): in
TimeAttack mode with a live timer, count down by the frame delta and request
the `GameOver` transition once the timer is no longer positive.  The system
touches no file: the slot's file state is returned unchanged.  `currentSlot`
is accepted (the system reads `GameSettings`) but unused, as in the source.
Returns the new timer, the requested transition, and the file state. -/
def update_time_attack (mode : GameMode) (currentSlot : Option Nat)
    (timer : Option ℚ) (dt : ℚ) (file : FileState) :
    Option ℚ × Option GameState × FileState :=
  if mode ≠ GameMode.TimeAttack then (timer, none, file)
  else
    match timer with
    | none => (none, none, file)
    | some remaining =>
      let r := remaining - dt
      (some r, if r ≤ 0 then some GameState.GameOver else none, file)

-- ---------------------------------------------------------------------------
-- Checkpoints mode (main.rs lines 251-277 and 2150-2202)
-- ---------------------------------------------------------------------------

/-- Embeds `CheckpointsState::new` (main.rs line 252). -/
def CheckpointsState.new (d : Difficulty) : CheckpointsState :=
  { checkpoints :=
      match d with
      | Difficulty.Easy => [5, 10, 15, 20]
      | Difficulty.Normal => [10, 20, 30, 40]
      | Difficulty.Hard => [15, 30, 45, 60],
    current_checkpoint_index := 0,
    completed := false,
    last_checkpoint_score := 0 }

/-- Embeds `CheckpointsState::target_score` (main.rs line 266). -/
def CheckpointsState.target_score (cp : CheckpointsState) : Nat :=
  if cp.current_checkpoint_index < cp.checkpoints.length then
    cp.checkpoints.getD cp.current_checkpoint_index 0
  else
    cp.checkpoints.getLast?.getD 0

/-- Embeds `CheckpointsState::is_final_checkpoint` (main.rs line 274). -/
def CheckpointsState.is_final_checkpoint (cp : CheckpointsState) : Bool :=
  decide (cp.current_checkpoint_index ≥ cp.checkpoints.length - 1)

/-- Core state transition of the `update_checkpoints` system
(main.rs lines 2172-2201), given the current score: when the current target
is reached and the run is not already completed, record the checkpoint as
the respawn point and either advance to the next checkpoint or, at the final
one, mark completion and request the `Victory` transition (the returned
flag). -/
def cpStep (scoreCurrent : Nat) (st : CheckpointsState) : CheckpointsState × Bool :=
  if st.completed = false ∧ scoreCurrent ≥ st.target_score then
    let st1 := { st with last_checkpoint_score := st.target_score }
    if st.is_final_checkpoint then ({ st1 with completed := true }, true)
    else ({ st1 with current_checkpoint_index := st.current_checkpoint_index + 1 },
          false)
  else (st, false)

/-- Embeds the `update_checkpoints` system (main.rs lines 2150-2202)
including its mode and resource guards. -/
def update_checkpoints (mode : GameMode) (cp : Option CheckpointsState)
    (scoreCurrent : Nat) : Option CheckpointsState × Bool :=
  if mode ≠ GameMode.Checkpoints then (cp, false)
  else
    match cp with
    | none => (none, false)
    | some st =>
      let r := cpStep scoreCurrent st
      (some r.1, r.2)

/-- Checkpoint state after `n` frames of Checkpoints-mode play, where
`scores i` is the current score observed by `update_checkpoints` on frame
`i`. -/
def cpStateAt (scores : Nat → Nat) (d : Difficulty) : Nat → CheckpointsState
  | 0 => CheckpointsState.new d
  | n + 1 => (cpStep (scores n) (cpStateAt scores d n)).1

/-- Whether the Victory transition is requested on frame `n`. -/
def victoryAt (scores : Nat → Nat) (d : Difficulty) (n : Nat) : Bool :=
  (cpStep (scores n) (cpStateAt scores d n)).2

-- ---------------------------------------------------------------------------
-- Run reset (main.rs lines 2421-2462)
-- ---------------------------------------------------------------------------

/-- Embeds the score and bird parts of `reset_on_play_start`
(main.rs lines 2439-2446): zero the current score and the scored-pipe list
(leaving the best score alone) and put the bird back at the origin at
rest. -/
def reset_on_play_start (sc : ScoreState) (b : BirdState) : ScoreState × BirdState :=
  ({ sc with current := 0, scored_pipes := [] },
   { b with velocity := 0, x := 0, y := 0 })

-- ---------------------------------------------------------------------------
-- Helper lemmas about the frame step
-- ---------------------------------------------------------------------------

/-- Axis-aligned box overlap between the bird and one pipe, exactly the test
on main.rs lines 2045-2048. -/
def overlapsBird (birdX birdY : ℚ) (o : ObstacleState) : Prop :=
  |o.y - birdY| < OBSTACLE_HEIGHT * pixel_ratio / 2 ∧
    |o.x - birdX| < OBSTACLE_WIDTH * pixel_ratio / 2

instance (birdX birdY : ℚ) (o : ObstacleState) :
    Decidable (overlapsBird birdX birdY o) := by
  unfold overlapsBird
  infer_instance

theorem scoreAndCollide_collision_iff (birdX birdY : ℚ)
    (obs : List ObstacleState) :
    ∀ sc : ScoreState,
      (scoreAndCollide birdX birdY obs sc).2.2 = true ↔
        ∃ o ∈ obs, overlapsBird birdX birdY o := by
  induction obs with
  | nil =>
    intro sc
    simp [scoreAndCollide]
  | cons o rest ih =>
    intro sc
    by_cases h : overlapsBird birdX birdY o
    · have h' := h
      unfold overlapsBird at h'
      simp [scoreAndCollide, h', h]
    · have h' := h
      unfold overlapsBird at h'
      simp [scoreAndCollide, h', ih, h]

theorem birdDies_iff (inp : UpdateBirdInput) (b : BirdState)
    (obs : List ObstacleState) (sc : ScoreState) :
    birdDies inp b obs sc = true ↔
      ((birdAfterPhysics inp b).y ≤ -inp.windowH / 2 ∨
        ∃ o ∈ obs,
          overlapsBird (birdAfterPhysics inp b).x (birdAfterPhysics inp b).y o) := by
  unfold birdDies frameStep update_bird_step
  by_cases hf : (birdAfterPhysics inp b).y ≤ -inp.windowH / 2
  · simp [hf]
  · simp [hf, scoreAndCollide_collision_iff]

/-- The frame's alive branch (main.rs: no `dead` flag set). -/
theorem update_bird_alive (inp : UpdateBirdInput) (b : BirdState)
    (obs : List ObstacleState) (sc : ScoreState)
    (h : birdDies inp b obs sc = false) :
    update_bird inp b obs sc =
      { bird := birdAfterPhysics inp b,
        obstacles := (frameStep inp b obs sc).1,
        score := (frameStep inp b obs sc).2.1,
        nextState := none,
        fileWrite := none } := by
  unfold update_bird
  unfold birdDies at h
  simp [h]

/-- The frame's Checkpoints respawn branch (main.rs lines 2066-2073). -/
theorem update_bird_respawn (inp : UpdateBirdInput) (b : BirdState)
    (obs : List ObstacleState) (sc : ScoreState) (cpSt : CheckpointsState)
    (hm : inp.mode = GameMode.Checkpoints) (hc : inp.cp = some cpSt)
    (h : birdDies inp b obs sc = true) :
    update_bird inp b obs sc =
      { bird := { birdAfterPhysics inp b with velocity := 0, y := 0 },
        obstacles := (frameStep inp b obs sc).1,
        score := { (frameStep inp b obs sc).2.1 with
                   current := cpSt.last_checkpoint_score },
        nextState := none,
        fileWrite := none } := by
  unfold update_bird
  unfold birdDies at h
  simp [h, hm, hc]

/-- The `SaveSlot` record built at run end (main.rs lines 2094-2103): the
mutated profile of the loaded save (or the inline new-player default), the
frame's final score, and a zero survival time. -/
def runEndSlot (inp : UpdateBirdInput) (slotNum : Nat) (finalScore : Nat) :
    SaveSlot :=
  { slot_number := slotNum,
    profile := update_profile_on_run_end
      (((load_save_slot inp.file).map (fun s => s.profile)).getD
        (newPlayerProfile slotNum))
      finalScore,
    mode := inp.mode,
    difficulty := inp.difficulty,
    theme := inp.theme,
    skin := inp.skin,
    score := finalScore,
    survival_time := 0 }

/-- The frame's run-end branch with a selected slot
(main.rs lines 2077-2108). -/
theorem update_bird_gameover (inp : UpdateBirdInput) (b : BirdState)
    (obs : List ObstacleState) (sc : ScoreState) (slotNum : Nat)
    (hnr : ¬(inp.mode = GameMode.Checkpoints ∧ inp.cp.isSome = true))
    (hs : inp.currentSlot = some slotNum)
    (h : birdDies inp b obs sc = true) :
    update_bird inp b obs sc =
      { bird := birdAfterPhysics inp b,
        obstacles := (frameStep inp b obs sc).1,
        score := (frameStep inp b obs sc).2.1,
        nextState := some GameState.GameOver,
        fileWrite := some
          (runEndSlot inp slotNum (frameStep inp b obs sc).2.1.current) } := by
  unfold update_bird runEndSlot
  unfold birdDies at h
  cases hmode : inp.mode <;> cases hcp : inp.cp <;> simp_all

/-- The frame's run-end branch without a selected slot. -/
theorem update_bird_gameover_noslot (inp : UpdateBirdInput) (b : BirdState)
    (obs : List ObstacleState) (sc : ScoreState)
    (hnr : ¬(inp.mode = GameMode.Checkpoints ∧ inp.cp.isSome = true))
    (hs : inp.currentSlot = none)
    (h : birdDies inp b obs sc = true) :
    update_bird inp b obs sc =
      { bird := birdAfterPhysics inp b,
        obstacles := (frameStep inp b obs sc).1,
        score := (frameStep inp b obs sc).2.1,
        nextState := some GameState.GameOver,
        fileWrite := none } := by
  unfold update_bird
  unfold birdDies at h
  cases hmode : inp.mode <;> cases hcp : inp.cp <;> simp_all

-- ---------------------------------------------------------------------------
-- Helper lemmas about obstacle recycling
-- ---------------------------------------------------------------------------

theorem update_obstacles_from_length (dt s w g : ℚ) (off : Nat → ℚ)
    (obs : List ObstacleState) :
    ∀ i : Nat, (update_obstacles_from dt s w g off i obs).length = obs.length := by
  induction obs with
  | nil => intro i; rfl
  | cons o rest ih =>
    intro i
    simp [update_obstacles_from, ih]

theorem update_obstacles_from_getD (dt s w g : ℚ) (off : Nat → ℚ)
    (d : ObstacleState) (obs : List ObstacleState) :
    ∀ i j : Nat, j < obs.length →
      (update_obstacles_from dt s w g off i obs).getD j d =
        update_obstacle dt s w g (off (i + j)) (obs.getD j d) := by
  induction obs with
  | nil =>
    intro i j h
    simp at h
  | cons o rest ih =>
    intro i j h
    cases j with
    | zero => simp [update_obstacles_from]
    | succ j' =>
      have h' : j' < rest.length := by
        simpa using h
      have hrec := ih (i + 1) j' h'
      have harith : i + 1 + j' = i + (j' + 1) := by omega
      rw [harith] at hrec
      simpa [update_obstacles_from] using hrec

-- ---------------------------------------------------------------------------
-- Helper lemmas about the checkpoint state machine
-- ---------------------------------------------------------------------------

theorem cpStep_checkpoints (s : Nat) (st : CheckpointsState) :
    (cpStep s st).1.checkpoints = st.checkpoints := by
  unfold cpStep
  split_ifs <;> rfl

theorem cpStateAt_checkpoints (scores : Nat → Nat) (d : Difficulty) :
    ∀ n : Nat,
      (cpStateAt scores d n).checkpoints = (CheckpointsState.new d).checkpoints := by
  intro n
  induction n with
  | zero => rfl
  | succ n ih =>
    calc (cpStateAt scores d (n + 1)).checkpoints
        = (cpStateAt scores d n).checkpoints := cpStep_checkpoints _ _
      _ = (CheckpointsState.new d).checkpoints := ih

theorem cpStep_victory_iff (s : Nat) (st : CheckpointsState) :
    (cpStep s st).2 = true ↔
      (st.completed = false ∧ s ≥ st.target_score) ∧
        st.is_final_checkpoint = true := by
  unfold cpStep
  split_ifs <;> simp_all

theorem getLast?_getD (l : List Nat) :
    l.getLast?.getD 0 = l.getD (l.length - 1) 0 := by
  induction l with
  | nil => rfl
  | cons a t ih =>
    cases t with
    | nil => rfl
    | cons b t' =>
      rw [List.getLast?_cons_cons]
      rw [ih]
      rfl

theorem target_score_final (st : CheckpointsState)
    (hfin : st.is_final_checkpoint = true) :
    st.target_score = st.checkpoints.getD (st.checkpoints.length - 1) 0 := by
  unfold CheckpointsState.is_final_checkpoint at hfin
  unfold CheckpointsState.target_score
  by_cases hlt : st.current_checkpoint_index < st.checkpoints.length
  · have hidx : st.current_checkpoint_index = st.checkpoints.length - 1 := by
      simp only [decide_eq_true_eq] at hfin
      omega
    rw [if_pos hlt, hidx]
  · rw [if_neg hlt, getLast?_getD]

/-- Inductive invariant: every checkpoint below the current index was reached
at some earlier frame, at weakly increasing frame times. -/
theorem cpStateAt_reached (scores : Nat → Nat) (d : Difficulty) :
    ∀ n : Nat,
      ∃ t : Nat → Nat,
        (∀ i j, i ≤ j → j < (cpStateAt scores d n).current_checkpoint_index →
          t i ≤ t j) ∧
        (∀ i, i < (cpStateAt scores d n).current_checkpoint_index →
          t i < n ∧
            scores (t i) ≥ (CheckpointsState.new d).checkpoints.getD i 0) := by
  intro n
  induction n with
  | zero =>
    refine ⟨fun _ => 0, ?_, ?_⟩
    · intro i j _ hj
      have h0 : (CheckpointsState.new d).current_checkpoint_index = 0 := rfl
      have : (cpStateAt scores d 0).current_checkpoint_index = 0 := h0
      omega
    · intro i hi
      have h0 : (CheckpointsState.new d).current_checkpoint_index = 0 := rfl
      have : (cpStateAt scores d 0).current_checkpoint_index = 0 := h0
      omega
  | succ n ih =>
    obtain ⟨t, hmono, hvals⟩ := ih
    have hst : cpStateAt scores d (n + 1) = (cpStep (scores n) (cpStateAt scores d n)).1 := rfl
    by_cases hcond : (cpStateAt scores d n).completed = false ∧
        scores n ≥ (cpStateAt scores d n).target_score
    · by_cases hfin : (cpStateAt scores d n).is_final_checkpoint = true
      · -- final branch: index unchanged, completion flag set
        have hidx : (cpStateAt scores d (n + 1)).current_checkpoint_index =
            (cpStateAt scores d n).current_checkpoint_index := by
          rw [hst]
          unfold cpStep
          simp [hcond, hfin]
        refine ⟨t, ?_, ?_⟩
        · intro i j hij hj
          exact hmono i j hij (hidx ▸ hj)
        · intro i hi
          have := hvals i (hidx ▸ hi)
          exact ⟨Nat.lt_succ_of_lt this.1, this.2⟩
      · -- advance branch: index grows by one, reached at frame n
        have hidx : (cpStateAt scores d (n + 1)).current_checkpoint_index =
            (cpStateAt scores d n).current_checkpoint_index + 1 := by
          rw [hst]
          unfold cpStep
          simp [hcond, hfin]
        have hlen : (cpStateAt scores d n).current_checkpoint_index <
            (cpStateAt scores d n).checkpoints.length := by
          unfold CheckpointsState.is_final_checkpoint at hfin
          simp only [decide_eq_true_eq] at hfin
          omega
        have htgt : (cpStateAt scores d n).target_score =
            (CheckpointsState.new d).checkpoints.getD
              (cpStateAt scores d n).current_checkpoint_index 0 := by
          unfold CheckpointsState.target_score
          rw [if_pos hlen, cpStateAt_checkpoints]
        refine ⟨fun i => if i = (cpStateAt scores d n).current_checkpoint_index
            then n else t i, ?_, ?_⟩
        · intro i j hij hj
          rw [hidx] at hj
          by_cases hje : j = (cpStateAt scores d n).current_checkpoint_index
          · by_cases hie : i = (cpStateAt scores d n).current_checkpoint_index
            · simp [hje, hie]
            · have hi' : i < (cpStateAt scores d n).current_checkpoint_index := by
                omega
              simp only [hje, hie, if_pos rfl, if_neg hie]
              exact Nat.le_of_lt (hvals i hi').1
          · have hj' : j < (cpStateAt scores d n).current_checkpoint_index := by
              omega
            have hie : i ≠ (cpStateAt scores d n).current_checkpoint_index := by
              omega
            simp only [if_neg hje, if_neg hie]
            exact hmono i j hij hj'
        · intro i hi
          rw [hidx] at hi
          by_cases hie : i = (cpStateAt scores d n).current_checkpoint_index
          · refine ⟨by simp [hie], ?_⟩
            simp only [if_pos hie]
            rw [← hie] at htgt
            rw [← htgt]
            exact hcond.2
          · have hi' : i < (cpStateAt scores d n).current_checkpoint_index := by
              omega
            have := hvals i hi'
            simp only [if_neg hie]
            exact ⟨Nat.lt_succ_of_lt this.1, this.2⟩
    · -- no checkpoint reached this frame: state unchanged
      have hidx : (cpStateAt scores d (n + 1)).current_checkpoint_index =
          (cpStateAt scores d n).current_checkpoint_index := by
        rw [hst]
        unfold cpStep
        simp [hcond]
      refine ⟨t, ?_, ?_⟩
      · intro i j hij hj
        exact hmono i j hij (hidx ▸ hj)
      · intro i hi
        have := hvals i (hidx ▸ hi)
        exact ⟨Nat.lt_succ_of_lt this.1, this.2⟩

-- ---------------------------------------------------------------------------
-- Score invariant lemmas
-- ---------------------------------------------------------------------------

theorem bumpScore_best_ge (sc : ScoreState) (h : sc.best ≥ sc.current) :
    (bumpScore sc).best ≥ (bumpScore sc).current := by
  unfold bumpScore
  by_cases hgt : sc.current + 1 > sc.best <;> simp [hgt] <;> omega

theorem scorePass_best_ge (x : ℚ) (o : ObstacleState) (sc : ScoreState)
    (h : sc.best ≥ sc.current) :
    (scorePass x o sc).2.best ≥ (scorePass x o sc).2.current := by
  unfold scorePass
  split_ifs <;> first | exact bumpScore_best_ge sc h | exact h

theorem scoreAndCollide_best_ge (x y : ℚ) (obs : List ObstacleState) :
    ∀ sc : ScoreState, sc.best ≥ sc.current →
      (scoreAndCollide x y obs sc).2.1.best ≥
        (scoreAndCollide x y obs sc).2.1.current := by
  induction obs with
  | nil =>
    intro sc h
    simpa [scoreAndCollide] using h
  | cons o rest ih =>
    intro sc h
    unfold scoreAndCollide
    by_cases hcol : |o.y - y| < OBSTACLE_HEIGHT * pixel_ratio / 2 ∧
        |o.x - x| < OBSTACLE_WIDTH * pixel_ratio / 2
    · simpa [hcol] using scorePass_best_ge x o sc h
    · simpa [hcol] using ih (scorePass x o sc).2 (scorePass_best_ge x o sc h)

-- ---------------------------------------------------------------------------
-- Concrete fixtures used by witnesses
-- ---------------------------------------------------------------------------

/-- Normal-difficulty tuning (main.rs lines 1722-1728). -/
def normalTuning : DifficultyTuning :=
  { gap_size := 25, scroll_speed := 150, gravity_mult := 1, flap_mult := 1,
    vertical_offset := 8 }

/-- Concrete frame input: Endless mode, slot 1 selected, no save file yet, an
800x600 window, a hundredth-of-a-second frame. -/
def sampleInput : UpdateBirdInput :=
  { spacePressed := false, dt := 1/100, windowW := 800, windowH := 600,
    tuning := normalTuning, mode := GameMode.Endless, currentSlot := some 1,
    difficulty := Difficulty.Normal, theme := Theme.Classic,
    skin := Skin.Classic, cp := none, file := FileState.missing }

/-- Same frame input with a one-second delta, long enough for the bird to
fall through the floor from the origin. -/
def sampleDeathInput : UpdateBirdInput :=
  { sampleInput with dt := 1 }

/-- A mid-run checkpoint state: second Normal checkpoint pending, first one
banked as the respawn point. -/
def sampleCpState : CheckpointsState :=
  { checkpoints := [10, 20, 30, 40], current_checkpoint_index := 1,
    completed := false, last_checkpoint_score := 10 }

/-- The death-frame input in Checkpoints mode with the checkpoint resource
present. -/
def sampleCpInput : UpdateBirdInput :=
  { sampleDeathInput with mode := GameMode.Checkpoints, cp := some sampleCpState }

def sampleBird : BirdState := { velocity := 0, x := 0, y := 0 }

def sampleScore : ScoreState := { current := 0, best := 0, scored_pipes := [] }

/-- An upward pipe the bird has just passed, far enough vertically not to
collide. -/
def samplePassedPipe : ObstacleState :=
  { pipe_direction := 1, scored := false, x := -10, y := 300 }

/-- With a one-second frame from the origin, gravity alone takes the bird to
y = -2000, far below the floor line at -300: the bird dies. -/
theorem sample_death_endless :
    birdDies sampleDeathInput sampleBird [] sampleScore = true := by
  rw [birdDies_iff]
  left
  show (birdAfterPhysics sampleDeathInput sampleBird).y ≤
    -sampleDeathInput.windowH / 2
  norm_num [birdAfterPhysics, update_bird_physics, sampleDeathInput,
    sampleInput, sampleBird, normalTuning, FLAP_FORCE, GRAVITY]

/-- The same death frame in Checkpoints mode. -/
theorem sample_death_checkpoints :
    birdDies sampleCpInput sampleBird [] sampleScore = true := by
  rw [birdDies_iff]
  left
  show (birdAfterPhysics sampleCpInput sampleBird).y ≤
    -sampleCpInput.windowH / 2
  norm_num [birdAfterPhysics, update_bird_physics, sampleCpInput,
    sampleDeathInput, sampleInput, sampleBird, normalTuning, FLAP_FORCE,
    GRAVITY]

-- ---------------------------------------------------------------------------
-- C1
-- ---------------------------------------------------------------------------

/-- C1: in every Playing-state frame that does not end in a Checkpoints-mode
respawn, `update_bird` integrates the bird by one explicit Euler step with
constant acceleration: if Space was just pressed the velocity is first set to
FLAP_FORCE * flap_mult, then dt * GRAVITY * gravity_mult is subtracted from
the velocity, and then the updated velocity times dt is added to the bird's
y translation (velocity is updated before position). -/
theorem c1_update_bird_euler_step (inp : UpdateBirdInput) (b : BirdState)
    (obs : List ObstacleState) (sc : ScoreState)
    (h : ¬(birdDies inp b obs sc = true ∧ inp.mode = GameMode.Checkpoints ∧
        inp.cp.isSome = true)) :
    (update_bird inp b obs sc).bird.velocity =
      (if inp.spacePressed then FLAP_FORCE * inp.tuning.flap_mult
        else b.velocity) - inp.dt * GRAVITY * inp.tuning.gravity_mult ∧
    (update_bird inp b obs sc).bird.y =
      b.y + (update_bird inp b obs sc).bird.velocity * inp.dt := by
  have hb : (update_bird inp b obs sc).bird = birdAfterPhysics inp b := by
    by_cases hd : birdDies inp b obs sc = true
    · have hnr : ¬(inp.mode = GameMode.Checkpoints ∧ inp.cp.isSome = true) :=
        fun hc => h ⟨hd, hc⟩
      cases hs : inp.currentSlot with
      | some n => rw [update_bird_gameover inp b obs sc n hnr hs hd]
      | none => rw [update_bird_gameover_noslot inp b obs sc hnr hs hd]
    · rw [update_bird_alive inp b obs sc (by simpa using hd)]
  rw [hb]
  constructor <;> rfl

theorem c1_witness :
    ¬(birdDies sampleInput sampleBird [] sampleScore = true ∧
        sampleInput.mode = GameMode.Checkpoints ∧
        sampleInput.cp.isSome = true) ∧
    ((update_bird sampleInput sampleBird [] sampleScore).bird.velocity =
      (if sampleInput.spacePressed then
          FLAP_FORCE * sampleInput.tuning.flap_mult
        else sampleBird.velocity) -
        sampleInput.dt * GRAVITY * sampleInput.tuning.gravity_mult ∧
     (update_bird sampleInput sampleBird [] sampleScore).bird.y =
      sampleBird.y +
        (update_bird sampleInput sampleBird [] sampleScore).bird.velocity *
          sampleInput.dt) :=
  ⟨fun h => absurd h.2.1 (by decide),
   c1_update_bird_euler_step sampleInput sampleBird [] sampleScore
     (fun h => absurd h.2.1 (by decide))⟩

-- ---------------------------------------------------------------------------
-- C2
-- ---------------------------------------------------------------------------

/-- C2: in every Playing-state frame, `update_bird` declares the bird dead if
and only if either its y translation is at most minus half the window height,
or some live obstacle's centre differs from the bird's centre by less than
OBSTACLE_HEIGHT * PIXEL_RATIO / 2 vertically and less than
OBSTACLE_WIDTH * PIXEL_RATIO / 2 horizontally; the right side is an
unordered overlap test over the whole obstacle list. -/
theorem c2_update_bird_death_iff (inp : UpdateBirdInput) (b : BirdState)
    (obs : List ObstacleState) (sc : ScoreState) :
    birdDies inp b obs sc = true ↔
      ((birdAfterPhysics inp b).y ≤ -inp.windowH / 2 ∨
        ∃ o ∈ obs,
          |o.y - (birdAfterPhysics inp b).y| <
              OBSTACLE_HEIGHT * pixel_ratio / 2 ∧
            |o.x - (birdAfterPhysics inp b).x| <
              OBSTACLE_WIDTH * pixel_ratio / 2) := by
  simpa [overlapsBird] using birdDies_iff inp b obs sc

-- ---------------------------------------------------------------------------
-- C9
-- ---------------------------------------------------------------------------

/-- C9: in Checkpoints mode, whenever the bird dies while the
`CheckpointsState` resource exists, `update_bird` requests no state
transition and writes no save file; it sets the current score back to
`last_checkpoint_score`, the bird's velocity to 0, and the bird's y
translation to 0. -/
theorem c9_checkpoints_respawn (inp : UpdateBirdInput) (b : BirdState)
    (obs : List ObstacleState) (sc : ScoreState) (cpSt : CheckpointsState)
    (hm : inp.mode = GameMode.Checkpoints) (hc : inp.cp = some cpSt)
    (hd : birdDies inp b obs sc = true) :
    (update_bird inp b obs sc).nextState = none ∧
    (update_bird inp b obs sc).fileWrite = none ∧
    (update_bird inp b obs sc).score.current = cpSt.last_checkpoint_score ∧
    (update_bird inp b obs sc).bird.velocity = 0 ∧
    (update_bird inp b obs sc).bird.y = 0 := by
  rw [update_bird_respawn inp b obs sc cpSt hm hc hd]
  exact ⟨rfl, rfl, rfl, rfl, rfl⟩

theorem c9_witness :
    sampleCpInput.mode = GameMode.Checkpoints ∧
    sampleCpInput.cp = some sampleCpState ∧
    birdDies sampleCpInput sampleBird [] sampleScore = true ∧
    ((update_bird sampleCpInput sampleBird [] sampleScore).nextState = none ∧
     (update_bird sampleCpInput sampleBird [] sampleScore).fileWrite = none ∧
     (update_bird sampleCpInput sampleBird [] sampleScore).score.current =
       sampleCpState.last_checkpoint_score ∧
     (update_bird sampleCpInput sampleBird [] sampleScore).bird.velocity = 0 ∧
     (update_bird sampleCpInput sampleBird [] sampleScore).bird.y = 0) :=
  ⟨rfl, rfl, sample_death_checkpoints,
   c9_checkpoints_respawn sampleCpInput sampleBird [] sampleScore sampleCpState
     rfl rfl sample_death_checkpoints⟩

-- ---------------------------------------------------------------------------
-- C10
-- ---------------------------------------------------------------------------

/-- C10: the Score invariant best >= current is preserved by the frame's
scoring loop; whenever the current score is incremented past the best, the
best is immediately raised to equal it; and `reset_on_play_start` zeroes the
current score while leaving the best unchanged. -/
theorem c10_score_invariant :
    (∀ (x y : ℚ) (obs : List ObstacleState) (sc : ScoreState),
      sc.best ≥ sc.current →
        (scoreAndCollide x y obs sc).2.1.best ≥
          (scoreAndCollide x y obs sc).2.1.current) ∧
    (∀ sc : ScoreState, (bumpScore sc).current > sc.best →
      (bumpScore sc).best = (bumpScore sc).current) ∧
    (∀ (sc : ScoreState) (b : BirdState),
      (reset_on_play_start sc b).1.current = 0 ∧
        (reset_on_play_start sc b).1.best = sc.best) := by
  refine ⟨fun x y obs sc h => scoreAndCollide_best_ge x y obs sc h, ?_, ?_⟩
  · intro sc h
    unfold bumpScore at h ⊢
    simp at h ⊢
    omega
  · intro sc b
    exact ⟨rfl, rfl⟩

theorem c10_witness :
    sampleScore.best ≥ sampleScore.current ∧
    (scoreAndCollide 0 0 [samplePassedPipe] sampleScore).2.1.best ≥
      (scoreAndCollide 0 0 [samplePassedPipe] sampleScore).2.1.current :=
  ⟨by decide,
   c10_score_invariant.1 0 0 [samplePassedPipe] sampleScore (by decide)⟩

-- ---------------------------------------------------------------------------
-- C8
-- ---------------------------------------------------------------------------

/-- C8: `update_obstacles` never despawns an obstacle (the output list has
the same length as the input), and an obstacle whose right edge has scrolled
past the left window edge is teleported right by
OBSTACLE_AMOUNT * OBSTACLE_SPACING * PIXEL_RATIO, given a fresh vertical
position on the side of its direction flag (with the oracle offset standing
for the random draw), and has its scored flag reset; any other obstacle is
only scrolled. -/
theorem c8_update_obstacles_recycles (dt s w g : ℚ) (off : Nat → ℚ)
    (obs : List ObstacleState) (d : ObstacleState) (j : Nat)
    (hj : j < obs.length) :
    (update_obstacles dt s w g off obs).length = obs.length ∧
    (((obs.getD j d).x - dt * s) + OBSTACLE_WIDTH * pixel_ratio / 2 < -w / 2 →
      (update_obstacles dt s w g off obs).getD j d =
        { obs.getD j d with
          x := ((obs.getD j d).x - dt * s) +
            (OBSTACLE_AMOUNT : ℚ) * OBSTACLE_SPACING * pixel_ratio,
          y := get_centered_pipe_position g * (obs.getD j d).pipe_direction +
            off j,
          scored := false }) ∧
    (¬(((obs.getD j d).x - dt * s) + OBSTACLE_WIDTH * pixel_ratio / 2 < -w / 2) →
      (update_obstacles dt s w g off obs).getD j d =
        { obs.getD j d with x := (obs.getD j d).x - dt * s }) := by
  have hget : (update_obstacles dt s w g off obs).getD j d =
      update_obstacle dt s w g (off j) (obs.getD j d) := by
    have := update_obstacles_from_getD dt s w g off d obs 0 j hj
    simpa [update_obstacles] using this
  refine ⟨update_obstacles_from_length dt s w g off obs 0, ?_, ?_⟩
  · intro hcond
    rw [hget]
    unfold update_obstacle
    rw [if_pos hcond]
  · intro hcond
    rw [hget]
    unfold update_obstacle
    rw [if_neg hcond]

theorem c8_witness :
    (0 : Nat) < [samplePassedPipe].length ∧
    ((update_obstacles 1 150 800 25 (fun _ => 2) [samplePassedPipe]).length =
      [samplePassedPipe].length ∧
    ((([samplePassedPipe].getD 0 samplePassedPipe).x - 1 * 150) +
        OBSTACLE_WIDTH * pixel_ratio / 2 < -800 / 2 →
      (update_obstacles 1 150 800 25 (fun _ => 2)
          [samplePassedPipe]).getD 0 samplePassedPipe =
        { [samplePassedPipe].getD 0 samplePassedPipe with
          x := (([samplePassedPipe].getD 0 samplePassedPipe).x - 1 * 150) +
            (OBSTACLE_AMOUNT : ℚ) * OBSTACLE_SPACING * pixel_ratio,
          y := get_centered_pipe_position 25 *
            ([samplePassedPipe].getD 0 samplePassedPipe).pipe_direction + 2,
          scored := false }) ∧
    (¬((([samplePassedPipe].getD 0 samplePassedPipe).x - 1 * 150) +
        OBSTACLE_WIDTH * pixel_ratio / 2 < -800 / 2) →
      (update_obstacles 1 150 800 25 (fun _ => 2)
          [samplePassedPipe]).getD 0 samplePassedPipe =
        { [samplePassedPipe].getD 0 samplePassedPipe with
          x := ([samplePassedPipe].getD 0 samplePassedPipe).x - 1 * 150 })) :=
  ⟨by decide,
   c8_update_obstacles_recycles 1 150 800 25 (fun _ => 2) [samplePassedPipe]
     samplePassedPipe 0 (by decide)⟩

-- ---------------------------------------------------------------------------
-- C3
-- ---------------------------------------------------------------------------

/-- C3: in Checkpoints mode the thresholds are fixed per difficulty
([5,10,15,20] Easy, [10,20,30,40] Normal, [15,30,45,60] Hard);
`update_checkpoints` drives the per-frame step; whenever the Victory
transition is requested on frame n, every threshold was reached at weakly
increasing frame times ending with the final threshold at frame n itself
(so Victory is never requested before every earlier threshold has been
met); and conversely the Victory transition is requested as soon as the run
is uncompleted, at its final checkpoint, and the score reaches the final
target. -/
theorem c3_checkpoints_victory :
    ((CheckpointsState.new Difficulty.Easy).checkpoints = [5, 10, 15, 20] ∧
     (CheckpointsState.new Difficulty.Normal).checkpoints = [10, 20, 30, 40] ∧
     (CheckpointsState.new Difficulty.Hard).checkpoints = [15, 30, 45, 60]) ∧
    (∀ (s : Nat) (st : CheckpointsState),
      update_checkpoints GameMode.Checkpoints (some st) s =
        (some (cpStep s st).1, (cpStep s st).2)) ∧
    (∀ (scores : Nat → Nat) (d : Difficulty) (n : Nat),
      victoryAt scores d n = true →
      ∃ t : Nat → Nat,
        (∀ i j, i ≤ j → j < (CheckpointsState.new d).checkpoints.length →
          t i ≤ t j) ∧
        (∀ i, i < (CheckpointsState.new d).checkpoints.length →
          t i ≤ n ∧
            scores (t i) ≥ (CheckpointsState.new d).checkpoints.getD i 0) ∧
        t ((CheckpointsState.new d).checkpoints.length - 1) = n) ∧
    (∀ (scores : Nat → Nat) (d : Difficulty) (n : Nat),
      (cpStateAt scores d n).completed = false →
      (cpStateAt scores d n).is_final_checkpoint = true →
      scores n ≥ (cpStateAt scores d n).target_score →
      victoryAt scores d n = true) := by
  refine ⟨⟨rfl, rfl, rfl⟩, fun s st => rfl, ?_, ?_⟩
  · intro scores d n hvic
    have hv := (cpStep_victory_iff (scores n) (cpStateAt scores d n)).1 hvic
    obtain ⟨⟨hcompl, hscore⟩, hfin⟩ := hv
    obtain ⟨t, hmono, hvals⟩ := cpStateAt_reached scores d n
    have hchk : (cpStateAt scores d n).checkpoints =
        (CheckpointsState.new d).checkpoints := cpStateAt_checkpoints scores d n
    have hfin' : (cpStateAt scores d n).current_checkpoint_index ≥
        (CheckpointsState.new d).checkpoints.length - 1 := by
      unfold CheckpointsState.is_final_checkpoint at hfin
      rw [hchk] at hfin
      simpa using hfin
    have htgt : (cpStateAt scores d n).target_score =
        (CheckpointsState.new d).checkpoints.getD
          ((CheckpointsState.new d).checkpoints.length - 1) 0 := by
      rw [target_score_final _ hfin, hchk]
    set len := (CheckpointsState.new d).checkpoints.length with hlen
    refine ⟨fun i => if i = len - 1 then n else t i, ?_, ?_, by simp⟩
    · intro i j hij hj
      by_cases hje : j = len - 1
      · by_cases hie : i = len - 1
        · simp [hje, hie]
        · have hi' : i < (cpStateAt scores d n).current_checkpoint_index := by
            omega
          simp only [if_pos hje, if_neg hie]
          exact Nat.le_of_lt (hvals i hi').1
      · have hie : i ≠ len - 1 := by omega
        have hj' : j < (cpStateAt scores d n).current_checkpoint_index := by
          omega
        simp only [if_neg hje, if_neg hie]
        exact hmono i j hij hj'
    · intro i hi
      by_cases hie : i = len - 1
      · refine ⟨by simp [hie], ?_⟩
        simp only [if_pos hie]
        rw [hie, ← htgt]
        exact hscore
      · have hi' : i < (cpStateAt scores d n).current_checkpoint_index := by
          omega
        simp only [if_neg hie]
        exact ⟨Nat.le_of_lt (Nat.lt_of_lt_of_le (hvals i hi').1 (Nat.le_refl n)),
          (hvals i hi').2⟩
  · intro scores d n hcompl hfin hscore
    unfold victoryAt cpStep
    simp [hcompl, hscore, hfin]

theorem c3_witness :
    victoryAt (fun k => k) Difficulty.Easy 20 = true ∧
    ∃ t : Nat → Nat,
      (∀ i j, i ≤ j →
        j < (CheckpointsState.new Difficulty.Easy).checkpoints.length →
        t i ≤ t j) ∧
      (∀ i, i < (CheckpointsState.new Difficulty.Easy).checkpoints.length →
        t i ≤ 20 ∧
          (fun k => k) (t i) ≥
            (CheckpointsState.new Difficulty.Easy).checkpoints.getD i 0) ∧
      t ((CheckpointsState.new Difficulty.Easy).checkpoints.length - 1) = 20 :=
  ⟨by decide,
   c3_checkpoints_victory.2.2.1 (fun k => k) Difficulty.Easy 20 (by decide)⟩

-- ---------------------------------------------------------------------------
-- C6
-- ---------------------------------------------------------------------------

/-- C6: serializing any SaveSlot as `save_to_slot` does and deserializing
the result as `load_save_slot` does yields an equal SaveSlot; in particular
the custom string encodings of GameMode, Difficulty, Theme and Skin satisfy
deserialize (serialize x) = x for every variant. -/
theorem c6_save_load_roundtrip :
    (∀ s : SaveSlot, decodeSaveSlot (encodeSaveSlot s) = some s) ∧
    (∀ (s : SaveSlot) (old : FileState),
      load_save_slot ((save_to_slot true s old).2) = some s) ∧
    (∀ m : GameMode, GameMode.deserialize (GameMode.serialize m) = some m) ∧
    (∀ d : Difficulty,
      Difficulty.deserialize (Difficulty.serialize d) = some d) ∧
    (∀ t : Theme, Theme.deserialize (Theme.serialize t) = some t) ∧
    (∀ k : Skin, Skin.deserialize (Skin.serialize k) = some k) := by
  refine ⟨decodeSaveSlot_encode, ?_, gameMode_deserialize_serialize,
    difficulty_deserialize_serialize, theme_deserialize_serialize,
    skin_deserialize_serialize⟩
  intro s old
  simp [save_to_slot, load_save_slot, decodeSaveSlot_encode]

-- ---------------------------------------------------------------------------
-- C7
-- ---------------------------------------------------------------------------

/-- C7: file I/O failures never surface.  `load_save_slot` returns none
whenever the file is missing, unreadable, or fails to parse or decode; the
run-end path with no loadable save substitutes the inline new-player profile
(high score 0, games played 0); and a failed `save_to_slot` is discarded —
the transition to GameOver still occurs and the file keeps its old state. -/
theorem c7_io_failures_swallowed :
    (∀ f : FileState, load_save_slot f = none ↔
      (f = FileState.missing ∨ f = FileState.unreadable ∨
        f = FileState.invalidJson ∨
        ∃ j, f = FileState.json j ∧ decodeSaveSlot j = none)) ∧
    (∀ n : Nat, (newPlayerProfile n).high_score = 0 ∧
      (newPlayerProfile n).total_games = 0) ∧
    (∀ (inp : UpdateBirdInput) (b : BirdState) (obs : List ObstacleState)
        (sc : ScoreState) (slotNum : Nat),
      inp.currentSlot = some slotNum →
      load_save_slot inp.file = none →
      ¬(inp.mode = GameMode.Checkpoints ∧ inp.cp.isSome = true) →
      birdDies inp b obs sc = true →
      (update_bird inp b obs sc).fileWrite =
        some (runEndSlot inp slotNum (frameStep inp b obs sc).2.1.current) ∧
      (runEndSlot inp slotNum (frameStep inp b obs sc).2.1.current).profile =
        update_profile_on_run_end (newPlayerProfile slotNum)
          (frameStep inp b obs sc).2.1.current ∧
      (update_bird_and_persist false inp b obs sc).1.nextState =
        some GameState.GameOver ∧
      (update_bird_and_persist false inp b obs sc).2 = inp.file) := by
  refine ⟨?_, fun n => ⟨rfl, rfl⟩, ?_⟩
  · intro f
    cases f <;> simp [load_save_slot]
  · intro inp b obs sc slotNum hs hload hnr hd
    have hup := update_bird_gameover inp b obs sc slotNum hnr hs hd
    have hw : (update_bird inp b obs sc).fileWrite =
        some (runEndSlot inp slotNum (frameStep inp b obs sc).2.1.current) := by
      rw [hup]
    refine ⟨hw, ?_, ?_, ?_⟩
    · simp [runEndSlot, hload]
    · unfold update_bird_and_persist
      simp only [hw]
      rw [hup]
    · unfold update_bird_and_persist
      simp only [hw]
      simp [save_to_slot]

theorem c7_witness :
    sampleDeathInput.currentSlot = some 1 ∧
    load_save_slot sampleDeathInput.file = none ∧
    ((update_bird sampleDeathInput sampleBird [] sampleScore).fileWrite =
      some (runEndSlot sampleDeathInput 1
        (frameStep sampleDeathInput sampleBird [] sampleScore).2.1.current) ∧
    (runEndSlot sampleDeathInput 1
        (frameStep sampleDeathInput sampleBird [] sampleScore).2.1.current).profile =
      update_profile_on_run_end (newPlayerProfile 1)
        (frameStep sampleDeathInput sampleBird [] sampleScore).2.1.current ∧
    (update_bird_and_persist false sampleDeathInput sampleBird []
        sampleScore).1.nextState = some GameState.GameOver ∧
    (update_bird_and_persist false sampleDeathInput sampleBird []
        sampleScore).2 = sampleDeathInput.file) :=
  ⟨rfl, rfl,
   c7_io_failures_swallowed.2.2 sampleDeathInput sampleBird [] sampleScore 1
     rfl rfl (fun h => absurd h.1 (by decide)) sample_death_endless⟩

-- ---------------------------------------------------------------------------
-- C4
-- ---------------------------------------------------------------------------

/-- The profile mutation as claim C4 words it, with "the longest survival is
updated from the run" read as folding the run's survival time into the
stored longest survival.  This definition follows the claim's words, for
comparison with `update_profile_on_run_end`, which embeds the code. -/
def update_profile_claimed_C4 (p : PlayerProfile) (runScore : Nat)
    (runSurvival : ℚ) : PlayerProfile :=
  let total := p.total_games + 1
  { p with
    total_games := total,
    high_score := max p.high_score runScore,
    average_score :=
      (p.average_score * ((total - 1 : Nat) : ℚ) + (runScore : ℚ)) / (total : ℚ),
    longest_survival := max p.longest_survival runSurvival }

/-- C4 counterexample: at a new-player profile, a run scoring 5 with a
3-second survival leaves the stored longest survival at 0, while the claim's
"longest survival is updated from the run" yields 3: the code never touches
the longest_survival field. -/
theorem c4_counterexample :
    (update_profile_on_run_end (newPlayerProfile 1) 5).longest_survival = 0 ∧
    (update_profile_claimed_C4 (newPlayerProfile 1) 5 3).longest_survival = 3 ∧
    update_profile_on_run_end (newPlayerProfile 1) 5 ≠
      update_profile_claimed_C4 (newPlayerProfile 1) 5 3 := by
  have h3 : (update_profile_claimed_C4 (newPlayerProfile 1) 5 3).longest_survival
      = 3 := by
    show max (newPlayerProfile 1).longest_survival 3 = 3
    norm_num [newPlayerProfile]
  refine ⟨rfl, h3, ?_⟩
  intro h
  have h0 : (update_profile_on_run_end
      (newPlayerProfile 1) 5).longest_survival = 0 := rfl
  rw [h, h3] at h0
  norm_num at h0

/-- C4 (amended): on every run end with a selected save slot, the persisted
profile has games played incremented by one, the high score becomes the
maximum of its previous value and the run's score, the running average
becomes (old_average * (new_total_games - 1) + run_score) / new_total_games,
while the longest survival is left unchanged (the slot's survival_time is
written as 0); and the mutated profile is persisted to disk. -/
theorem c4_profile_update_on_run_end :
    (∀ (p : PlayerProfile) (r : Nat),
      (update_profile_on_run_end p r).total_games = p.total_games + 1 ∧
      (update_profile_on_run_end p r).high_score = max p.high_score r ∧
      (update_profile_on_run_end p r).average_score =
        (p.average_score * ((p.total_games + 1 - 1 : Nat) : ℚ) + (r : ℚ)) /
          ((p.total_games + 1 : Nat) : ℚ) ∧
      (update_profile_on_run_end p r).longest_survival = p.longest_survival ∧
      (update_profile_on_run_end p r).name = p.name) ∧
    (∀ (inp : UpdateBirdInput) (b : BirdState) (obs : List ObstacleState)
        (sc : ScoreState) (slotNum : Nat),
      inp.currentSlot = some slotNum →
      ¬(inp.mode = GameMode.Checkpoints ∧ inp.cp.isSome = true) →
      birdDies inp b obs sc = true →
      (update_bird inp b obs sc).fileWrite =
        some (runEndSlot inp slotNum (frameStep inp b obs sc).2.1.current) ∧
      (runEndSlot inp slotNum (frameStep inp b obs sc).2.1.current).profile =
        update_profile_on_run_end
          (((load_save_slot inp.file).map (fun s => s.profile)).getD
            (newPlayerProfile slotNum))
          (frameStep inp b obs sc).2.1.current ∧
      (runEndSlot inp slotNum
        (frameStep inp b obs sc).2.1.current).survival_time = 0 ∧
      (update_bird_and_persist true inp b obs sc).2 =
        FileState.json (encodeSaveSlot
          (runEndSlot inp slotNum (frameStep inp b obs sc).2.1.current))) := by
  constructor
  · intro p r
    refine ⟨rfl, ?_, rfl, rfl, rfl⟩
    show (if r > p.high_score then r else p.high_score) = max p.high_score r
    split_ifs with hgt <;> omega
  · intro inp b obs sc slotNum hs hnr hd
    have hup := update_bird_gameover inp b obs sc slotNum hnr hs hd
    have hw : (update_bird inp b obs sc).fileWrite =
        some (runEndSlot inp slotNum (frameStep inp b obs sc).2.1.current) := by
      rw [hup]
    refine ⟨hw, rfl, rfl, ?_⟩
    unfold update_bird_and_persist
    simp only [hw]
    simp [save_to_slot]

theorem c4_witness :
    sampleDeathInput.currentSlot = some 1 ∧
    ((update_bird sampleDeathInput sampleBird [] sampleScore).fileWrite =
      some (runEndSlot sampleDeathInput 1
        (frameStep sampleDeathInput sampleBird [] sampleScore).2.1.current) ∧
    (runEndSlot sampleDeathInput 1
        (frameStep sampleDeathInput sampleBird [] sampleScore).2.1.current).profile =
      update_profile_on_run_end
        (((load_save_slot sampleDeathInput.file).map (fun s => s.profile)).getD
          (newPlayerProfile 1))
        (frameStep sampleDeathInput sampleBird [] sampleScore).2.1.current ∧
    (runEndSlot sampleDeathInput 1
        (frameStep sampleDeathInput sampleBird [] sampleScore).2.1.current).survival_time = 0 ∧
    (update_bird_and_persist true sampleDeathInput sampleBird []
        sampleScore).2 =
      FileState.json (encodeSaveSlot (runEndSlot sampleDeathInput 1
        (frameStep sampleDeathInput sampleBird [] sampleScore).2.1.current))) :=
  ⟨rfl,
   c4_profile_update_on_run_end.2 sampleDeathInput sampleBird [] sampleScore 1
     rfl (fun h => absurd h.1 (by decide)) sample_death_endless⟩

-- ---------------------------------------------------------------------------
-- C5
-- ---------------------------------------------------------------------------

/-- C5 counterexample: with slot 1 selected and half a second remaining, a
one-second frame makes `update_time_attack` request the GameOver transition
while the (missing) slot file is left untouched — a transition into GameOver
that does not rewrite the save file. -/
theorem c5_counterexample :
    (update_time_attack GameMode.TimeAttack (some 1) (some (1/2)) 1
        FileState.missing).2.1 = some GameState.GameOver ∧
    (update_time_attack GameMode.TimeAttack (some 1) (some (1/2)) 1
        FileState.missing).2.2 = FileState.missing := by
  constructor
  · show (if (1:ℚ)/2 - 1 ≤ 0 then some GameState.GameOver else none) =
      some GameState.GameOver
    norm_num
  · rfl

/-- C5 (amended): game-over transitions caused by bird death with a slot
selected overwrite the slot file wholesale with the complete JSON encoding
of the new SaveSlot record, regardless of the file's previous contents; the
transition caused by the Time Attack timer reaching zero performs no file
write, leaving the slot file unchanged. -/
theorem c5_gameover_overwrites_file :
    (∀ (mode : GameMode) (slot : Option Nat) (timer : Option ℚ) (dt : ℚ)
        (file : FileState),
      (update_time_attack mode slot timer dt file).2.2 = file) ∧
    (∀ (inp : UpdateBirdInput) (b : BirdState) (obs : List ObstacleState)
        (sc : ScoreState) (slotNum : Nat),
      inp.currentSlot = some slotNum →
      ¬(inp.mode = GameMode.Checkpoints ∧ inp.cp.isSome = true) →
      birdDies inp b obs sc = true →
      (update_bird inp b obs sc).nextState = some GameState.GameOver ∧
      (update_bird_and_persist true inp b obs sc).2 =
        FileState.json (encodeSaveSlot
          (runEndSlot inp slotNum (frameStep inp b obs sc).2.1.current))) := by
  constructor
  · intro mode slot timer dt file
    unfold update_time_attack
    by_cases hm : mode ≠ GameMode.TimeAttack
    · rw [if_pos hm]
    · rw [if_neg hm]
      cases timer <;> rfl
  · intro inp b obs sc slotNum hs hnr hd
    have hup := update_bird_gameover inp b obs sc slotNum hnr hs hd
    have hw : (update_bird inp b obs sc).fileWrite =
        some (runEndSlot inp slotNum (frameStep inp b obs sc).2.1.current) := by
      rw [hup]
    refine ⟨by rw [hup], ?_⟩
    unfold update_bird_and_persist
    simp only [hw]
    simp [save_to_slot]

theorem c5_witness :
    sampleDeathInput.currentSlot = some 1 ∧
    ((update_bird sampleDeathInput sampleBird [] sampleScore).nextState =
      some GameState.GameOver ∧
    (update_bird_and_persist true sampleDeathInput sampleBird []
        sampleScore).2 =
      FileState.json (encodeSaveSlot (runEndSlot sampleDeathInput 1
        (frameStep sampleDeathInput sampleBird [] sampleScore).2.1.current))) :=
  ⟨rfl,
   c5_gameover_overwrites_file.2 sampleDeathInput sampleBird [] sampleScore 1
     rfl (fun h => absurd h.1 (by decide)) sample_death_endless⟩
